import Mathlib

/-!
Verification of the debt amortization engine of `src/Finance.py`
(Personal Finance Tracker).

The only logically non-trivial code is inside `manage_debts`:
* the minimum-payment payoff simulation (lines 354-370), a `while` loop
  with no non-progress guard, and
* the additional-payment application (lines 374-413), which splits a
  payment into interest and principal, updates the debt row selected by
  creditor name, appends a `debt_payments` row, and decrements the
  savings balance.

Currency amounts are modelled as exact rationals (`ℚ`); the Python code
uses floating point, but the specification's quantities (interest,
principal, balances) are stated at the exact-arithmetic level.
The SQLite tables are modelled as lists of records in a `Store`; the
`UPDATE ... WHERE creditor = ?` statement is modelled as a map over the
debts list that rewrites every row whose creditor matches, exactly as
SQL does.  The unbounded `while` loop is modelled with explicit fuel:
`none` means the loop was still running after `fuel` iterations.
-/

/-- A row of the `debts` table (lines 50-56 of `src/Finance.py`). -/
structure Debt where
  id : ℕ
  creditor : String
  amount_owed : ℚ
  interest_rate : ℚ
  min_payment : ℚ
deriving DecidableEq, Repr

/-- A row of the `debt_payments` table (lines 58-64). -/
structure DebtPayment where
  debt_id : ℕ
  payment_amount : ℚ
  payment_date : String
deriving DecidableEq, Repr

/-- The singleton `savings` row (lines 43-48). -/
structure Savings where
  saved_amount : ℚ
  goal_amount : ℚ
  monthly_savings : ℚ
deriving DecidableEq, Repr

/-- The persistent store: the three tables the debt engine touches. -/
structure Store where
  debts : List Debt
  debt_payments : List DebtPayment
  savings : Savings
deriving DecidableEq, Repr

/-- `initialize_db` (lines 23-74): empty tables plus one savings row
with `saved_amount = 0, goal_amount = 0, monthly_savings = 0`. -/
def initStore : Store := ⟨[], [], ⟨0, 0, 0⟩⟩

/-- Adding a debt (lines 315-322): a plain `INSERT` of the four user
fields; the id is the autoincrement key.  No uniqueness check on the
creditor name is performed. -/
def addDebt (s : Store) (creditor : String)
    (amount_owed interest_rate min_payment : ℚ) : Store :=
  { s with debts :=
      s.debts ++ [⟨s.debts.length + 1, creditor, amount_owed, interest_rate, min_payment⟩] }

/-- `monthly_interest_rate = (interest_rate / 100) / 12`
(lines 355 and 381). -/
def monthlyRate (interest_rate : ℚ) : ℚ :=
  interest_rate / 100 / 12

/-- Selecting a debt by creditor name: the calculator takes
`debts_df[debts_df["creditor"] == selected_debt].iloc[0]` (line 342),
i.e. the first row whose creditor matches. -/
def getDebt (s : Store) (creditor : String) : Option Debt :=
  s.debts.find? (fun x => x.creditor == creditor)

/-- The `while` loop of the payoff simulation (lines 360-365):

    while remaining_balance > 0:
        interest = remaining_balance * monthly_interest_rate
        principal = min_payment - interest
        remaining_balance -= principal
        total_interest += interest
        months += 1

modelled with fuel; `none` means the loop had not exited after `fuel`
iterations. -/
def payoffLoop (r m : ℚ) : ℕ → ℚ → ℕ → ℚ → Option (ℕ × ℚ)
  | 0, remaining_balance, months, total_interest =>
    if 0 < remaining_balance then none else some (months, total_interest)
  | fuel + 1, remaining_balance, months, total_interest =>
    if 0 < remaining_balance then
      let interest := remaining_balance * r
      let principal := m - interest
      payoffLoop r m fuel (remaining_balance - principal) (months + 1)
        (total_interest + interest)
    else some (months, total_interest)

/-- Outcome of the payoff simulation. -/
inductive SimOutcome where
  | result (months : ℕ) (total_interest : ℚ)
  | invalidInput
  | running
deriving DecidableEq, Repr

/-- The payoff simulation (lines 354-370): rejected when
`min_payment ≤ 0` (line 370), otherwise the loop starting from
`remaining_balance = amount_owed, months = 0, total_interest = 0`.
`running` records that the loop had not terminated within `fuel`
iterations. -/
def simulatePayoff (amount_owed interest_rate min_payment : ℚ)
    (fuel : ℕ) : SimOutcome :=
  if 0 < min_payment then
    match payoffLoop (monthlyRate interest_rate) min_payment fuel amount_owed 0 0 with
    | some (months, total_interest) => .result months total_interest
    | none => .running
  else .invalidInput

/-- The per-period recurrence exactly as §4.1 of the specification
words it: repeat while `remaining_balance > 0`:
`interest = remaining_balance × monthly_rate`;
`principal = min_payment − interest`;
`remaining_balance −= principal`; `total_interest += interest`;
`months += 1`; terminate when `remaining_balance ≤ 0`.  Used only to
compare against `payoffLoop`, which is read off the code. -/
def specRecurrence (monthly_rate min_payment : ℚ) :
    ℕ → ℚ → ℕ → ℚ → Option (ℕ × ℚ)
  | 0, remaining_balance, months, total_interest =>
    if 0 < remaining_balance then none else some (months, total_interest)
  | fuel + 1, remaining_balance, months, total_interest =>
    if 0 < remaining_balance then
      specRecurrence monthly_rate min_payment fuel
        (remaining_balance - (min_payment - remaining_balance * monthly_rate))
        (months + 1)
        (total_interest + remaining_balance * monthly_rate)
    else some (months, total_interest)

/-- Errors of the additional-payment application. -/
inductive PaymentError where
  | nonPositivePayment
  | insufficientPayment
  | notFound
deriving DecidableEq, Repr

/-- The additional-payment application (lines 374-413):
reject a non-positive payment (lines 376, 413); compute
`interest = amount_owed * monthly_rate` and
`principal_payment = additional_payment - interest`; if
`principal_payment < 0` fail without touching the store (lines
386-387); otherwise set `amount_owed = new_amount_owed` on every debts
row whose creditor matches (line 391), insert a `debt_payments` row
carrying the gross payment amount and today's date (lines 394-395), and
decrement `saved_amount` by the payment (lines 398-402). -/
def applyAdditionalPayment (s : Store) (d : Debt) (additional_payment : ℚ)
    (today : String) : Except PaymentError Store :=
  if 0 < additional_payment then
    let interest := d.amount_owed * monthlyRate d.interest_rate
    let principal_payment := additional_payment - interest
    if principal_payment < 0 then
      .error .insufficientPayment
    else
      let new_amount_owed := d.amount_owed - principal_payment
      .ok { debts := s.debts.map fun x =>
              if x.creditor = d.creditor then
                { x with amount_owed := new_amount_owed }
              else x
          , debt_payments :=
              s.debt_payments ++ [⟨d.id, additional_payment, today⟩]
          , savings :=
              { s.savings with
                  saved_amount := s.savings.saved_amount - additional_payment } }
  else .error .nonPositivePayment

/-- A sequence of additional payments against the debt named
`creditor`, each applied to the store left by the previous one, each
selecting the debt afresh as the code does on every rerun. -/
def applySeq (s : Store) (creditor : String) :
    List (ℚ × String) → Except PaymentError Store
  | [] => .ok s
  | (p, t) :: rest =>
    match getDebt s creditor with
    | none => .error .notFound
    | some d =>
      match applyAdditionalPayment s d p t with
      | .ok s' => applySeq s' creditor rest
      | .error e => .error e

/-- Sum of the recorded payment amounts of a payment log. -/
def paymentsSum (l : List DebtPayment) : ℚ :=
  (l.map DebtPayment.payment_amount).sum

/-! ### Helper lemmas -/

/-- The loop exits immediately when the balance is already non-positive. -/
lemma payoffLoop_exit (r m : ℚ) (fuel : ℕ) (b : ℚ) (months : ℕ) (ti : ℚ)
    (hb : b ≤ 0) : payoffLoop r m fuel b months ti = some (months, ti) := by
  cases fuel <;> simp [payoffLoop, not_lt.mpr hb]

/-- When the payment never exceeds the interest accrued at balance `B`,
any balance `b ≥ B > 0` never decreases below `B`, so the loop runs out
of any amount of fuel: the `while` loop of lines 360-365 never exits. -/
lemma payoffLoop_stuck (B r m : ℚ) (hB : 0 < B) (hr : 0 ≤ r) (hm : m ≤ B * r) :
    ∀ (fuel : ℕ) (b : ℚ), B ≤ b → ∀ (months : ℕ) (ti : ℚ),
      payoffLoop r m fuel b months ti = none := by
  intro fuel
  induction fuel with
  | zero =>
    intro b hb months ti
    simp [payoffLoop, lt_of_lt_of_le hB hb]
  | succ n ih =>
    intro b hb months ti
    have hbpos : 0 < b := lt_of_lt_of_le hB hb
    have h1 : B * r ≤ b * r := mul_le_mul_of_nonneg_right hb hr
    have h2 : B ≤ b - (m - b * r) := by linarith
    simp only [payoffLoop, if_pos hbpos]
    exact ih _ h2 _ _

/-- When the payment strictly exceeds the interest accrued at the
starting balance `B0`, every iteration reduces the balance by at least
`m - B0 * r > 0`, so fuel `n` with `b ≤ n * (m - B0 * r)` suffices; the
accumulated interest never decreases and the month counter advances at
least once whenever the balance is still positive. -/
lemma payoffLoop_terminates (r m B0 : ℚ) (hr : 0 ≤ r) (hm : B0 * r < m) :
    ∀ (n : ℕ) (b : ℚ) (months : ℕ) (ti : ℚ),
      b ≤ n * (m - B0 * r) → b ≤ B0 →
      ∃ mo tI, payoffLoop r m n b months ti = some (mo, tI) ∧
        ti ≤ tI ∧ months ≤ mo ∧ (0 < b → months + 1 ≤ mo) := by
  intro n
  induction n with
  | zero =>
    intro b months ti hfuel _
    have hb : b ≤ 0 := by simpa using hfuel
    exact ⟨months, ti, payoffLoop_exit r m 0 b months ti hb, le_refl ti, le_refl months,
      fun hpos => absurd hpos (not_lt.mpr hb)⟩
  | succ n ih =>
    intro b months ti hfuel hB0
    by_cases hb : 0 < b
    · have hδ : 0 < m - B0 * r := sub_pos.mpr hm
      have hbr : b * r ≤ B0 * r := mul_le_mul_of_nonneg_right hB0 hr
      have hfuel' : b - (m - b * r) ≤ n * (m - B0 * r) := by
        push_cast [Nat.cast_succ] at hfuel ⊢
        linarith
      have hB0' : b - (m - b * r) ≤ B0 := by linarith
      obtain ⟨mo, tI, heq, hti, hmo, _⟩ := ih (b - (m - b * r)) (months + 1) (ti + b * r) hfuel' hB0'
      refine ⟨mo, tI, ?_, ?_, ?_, fun _ => hmo⟩
      · simp only [payoffLoop, if_pos hb]
        exact heq
      · have : 0 ≤ b * r := mul_nonneg hb.le hr
        linarith
      · omega
    · push_neg at hb
      exact ⟨months, ti, payoffLoop_exit r m (n + 1) b months ti hb, le_refl ti, le_refl months,
        fun hpos => absurd hpos (not_lt.mpr hb)⟩

/-- The monthly rate of a non-negative annual percentage is non-negative. -/
lemma monthlyRate_nonneg {interest_rate : ℚ} (h : 0 ≤ interest_rate) :
    0 ≤ monthlyRate interest_rate := by
  unfold monthlyRate; positivity

/-- Shape of a successful additional-payment application: it implies
the payment was positive and covered the accrued interest, and the
resulting store is the input store with the three documented changes. -/
lemma applyAdditionalPayment_ok (s : Store) (d : Debt) (p : ℚ) (t : String) (s' : Store)
    (h : applyAdditionalPayment s d p t = Except.ok s') :
    0 < p ∧ 0 ≤ p - d.amount_owed * monthlyRate d.interest_rate ∧
    s' = { debts := s.debts.map fun x =>
             if x.creditor = d.creditor then
               { x with amount_owed :=
                   d.amount_owed - (p - d.amount_owed * monthlyRate d.interest_rate) }
             else x
         , debt_payments := s.debt_payments ++ [⟨d.id, p, t⟩]
         , savings := { s.savings with
             saved_amount := s.savings.saved_amount - p } } := by
  by_cases hp : 0 < p
  · by_cases hpr : p - d.amount_owed * monthlyRate d.interest_rate < 0
    · simp only [applyAdditionalPayment, if_pos hp, if_pos hpr] at h
      exact (Except.noConfusion h)
    · refine ⟨hp, not_lt.mp hpr, ?_⟩
      simp only [applyAdditionalPayment, if_pos hp, if_neg hpr, Except.ok.injEq] at h
      exact h.symm
  · simp [applyAdditionalPayment, hp] at h

/-- `find?` over the creditor-keyed update map: the first matching row
of the updated table is the first matching row of the old table with
its balance overwritten. -/
lemma find?_map_update (l : List Debt) (c : String) (v : ℚ) :
    (l.map fun x => if x.creditor = c then { x with amount_owed := v } else x).find?
        (fun x => x.creditor == c) =
      (l.find? fun x => x.creditor == c).map
        (fun x => { x with amount_owed := v }) := by
  induction l with
  | nil => rfl
  | cons a l ih =>
    by_cases h : a.creditor = c
    · have hfa : (if a.creditor = c then { a with amount_owed := v } else a) =
          { a with amount_owed := v } := if_pos h
      simp only [List.map_cons, hfa]
      rw [@List.find?_cons_of_pos Debt (fun x => x.creditor == c) { a with amount_owed := v } _ (by simp [h]),
        @List.find?_cons_of_pos Debt (fun x => x.creditor == c) a l (by simp [h])]
      rfl
    · have hfa : (if a.creditor = c then { a with amount_owed := v } else a) = a := if_neg h
      simp only [List.map_cons, hfa]
      rw [@List.find?_cons_of_neg Debt (fun x => x.creditor == c) a _ (by simp [h]),
        @List.find?_cons_of_neg Debt (fun x => x.creditor == c) a l (by simp [h])]
      exact ih

/-- A store containing a debt yields some first row under its creditor name. -/
lemma getDebt_mem_isSome (s : Store) (d : Debt) (hmem : d ∈ s.debts) :
    ∃ x, getDebt s d.creditor = some x ∧ x.creditor = d.creditor := by
  have h : (s.debts.find? (fun x => x.creditor == d.creditor)).isSome := by
    rw [List.find?_isSome]
    exact ⟨d, hmem, by simp⟩
  obtain ⟨x, hx⟩ := Option.isSome_iff_exists.mp h
  exact ⟨x, hx, by simpa using List.find?_some hx⟩

/-- The loop read off the code coincides with the recurrence worded in
§4.1 of the specification, state by state. -/
lemma payoffLoop_eq_specRecurrence (r m : ℚ) :
    ∀ (fuel : ℕ) (b : ℚ) (months : ℕ) (ti : ℚ),
      payoffLoop r m fuel b months ti = specRecurrence r m fuel b months ti := by
  intro fuel
  induction fuel with
  | zero => intro b months ti; rfl
  | succ n ih =>
    intro b months ti
    by_cases hb : 0 < b
    · simp only [payoffLoop, specRecurrence, if_pos hb]
      exact ih _ _ _
    · simp only [payoffLoop, specRecurrence, if_neg hb]

lemma applyAdditionalPayment_ok_of (s : Store) (d : Debt) (p : ℚ) (t : String)
    (hp0 : 0 < p) (hpr : ¬ p - d.amount_owed * monthlyRate d.interest_rate < 0) :
    applyAdditionalPayment s d p t = Except.ok
      { debts := s.debts.map fun x =>
          if x.creditor = d.creditor then
            { x with amount_owed :=
                d.amount_owed - (p - d.amount_owed * monthlyRate d.interest_rate) }
          else x
      , debt_payments := s.debt_payments ++ [⟨d.id, p, t⟩]
      , savings := { s.savings with
          saved_amount := s.savings.saved_amount - p } } := by
  simp only [applyAdditionalPayment, if_pos hp0, if_neg hpr]

/-- Claim C1: for every debt with balance `B` and monthly rate
`r = interest_rate/100/12`, an additional payment `P > B*r` succeeds and
sets the balance of the paid debt to `B - (P - B*r)`. -/
theorem additionalPayment_success (s : Store) (d : Debt) (p : ℚ) (today : String)
    (hmem : d ∈ s.debts) (hB : 0 ≤ d.amount_owed) (hr : 0 ≤ d.interest_rate)
    (hp : d.amount_owed * monthlyRate d.interest_rate < p) :
    ∃ s' x, applyAdditionalPayment s d p today = Except.ok s' ∧
      getDebt s' d.creditor = some x ∧
      x.amount_owed = d.amount_owed - (p - d.amount_owed * monthlyRate d.interest_rate) := by
  have hp0 : 0 < p := lt_of_le_of_lt (mul_nonneg hB (monthlyRate_nonneg hr)) hp
  have hpr : ¬ (p - d.amount_owed * monthlyRate d.interest_rate < 0) := by linarith
  obtain ⟨x0, hx0, hx0c⟩ := getDebt_mem_isSome s d hmem
  simp only [getDebt] at hx0
  refine ⟨_, { x0 with amount_owed :=
      d.amount_owed - (p - d.amount_owed * monthlyRate d.interest_rate) },
    applyAdditionalPayment_ok_of s d p today hp0 hpr, ?_, rfl⟩
  simp only [getDebt, find?_map_update, hx0]
  rfl

/-- Witness for C1, the spec's concrete scenario: balance 500 at 24%
annual (monthly rate 0.02), payment 50: interest 10, principal 40, new
balance 460. -/
theorem additionalPayment_success_witness :
    ∃ s' x,
      applyAdditionalPayment ⟨[⟨1, "Bank", 500, 24, 50⟩], [], ⟨100, 0, 0⟩⟩
          ⟨1, "Bank", 500, 24, 50⟩ 50 "2026-02-03" = Except.ok s' ∧
      getDebt s' "Bank" = some x ∧
      x.amount_owed = 460 ∧ (500 : ℚ) * monthlyRate 24 = 10 ∧
      (50 : ℚ) - 500 * monthlyRate 24 = 40 := by
  obtain ⟨s', x, h1, h2, h3⟩ :=
    additionalPayment_success ⟨[⟨1, "Bank", 500, 24, 50⟩], [], ⟨100, 0, 0⟩⟩
      ⟨1, "Bank", 500, 24, 50⟩ 50 "2026-02-03" (by simp) (by norm_num) (by norm_num)
      (by norm_num [monthlyRate])
  exact ⟨s', x, h1, h2, by rw [h3]; norm_num [monthlyRate],
    by norm_num [monthlyRate], by norm_num [monthlyRate]⟩

/-- Claim C2, amended: a positive additional payment strictly below the
accrued interest `B*r` fails with `insufficientPayment`; the error result
carries no store, so no mutation occurs.  (As stated, with `P ≤ B*r`, the
claim is refuted by `insufficientPayment_boundary_counterexample`: at
`P = B*r` the code accepts the payment.) -/
theorem insufficientPayment_strict (s : Store) (d : Debt) (p : ℚ) (today : String)
    (hp : 0 < p) (hlt : p < d.amount_owed * monthlyRate d.interest_rate) :
    applyAdditionalPayment s d p today = Except.error PaymentError.insufficientPayment := by
  have hneg : p - d.amount_owed * monthlyRate d.interest_rate < 0 := sub_neg.mpr hlt
  simp only [applyAdditionalPayment, if_pos hp, if_pos hneg]

/-- Witness for C2 (amended), the spec's concrete scenario: balance 1000
at 24% annual, payment 15 < interest 20 fails with `insufficientPayment`. -/
theorem insufficientPayment_strict_witness :
    (0 : ℚ) < 15 ∧ (15 : ℚ) < 1000 * monthlyRate 24 ∧
    applyAdditionalPayment ⟨[⟨1, "Bank", 1000, 24, 15⟩], [], ⟨0, 0, 0⟩⟩
        ⟨1, "Bank", 1000, 24, 15⟩ 15 "2026-02-03" =
      Except.error PaymentError.insufficientPayment :=
  ⟨by norm_num, by norm_num [monthlyRate],
    insufficientPayment_strict ⟨[⟨1, "Bank", 1000, 24, 15⟩], [], ⟨0, 0, 0⟩⟩
      ⟨1, "Bank", 1000, 24, 15⟩ 15 "2026-02-03" (by norm_num) (by norm_num [monthlyRate])⟩

/-- Counterexample to C2 as stated: at `P = B*r` exactly (balance 1000,
24% annual, interest 20, payment 20) the guard `principal_payment < 0` at
line 386 does not fire: the payment is accepted, a log entry is appended
and savings are decremented, where the claim demands failure with no
mutation. -/
theorem insufficientPayment_boundary_counterexample :
    (20 : ℚ) ≤ 1000 * monthlyRate 24 ∧
    applyAdditionalPayment ⟨[⟨1, "Bank", 1000, 24, 15⟩], [], ⟨0, 0, 0⟩⟩
        ⟨1, "Bank", 1000, 24, 15⟩ 20 "2026-02-03" =
      Except.ok ⟨[⟨1, "Bank", 1000, 24, 15⟩], [⟨1, 20, "2026-02-03"⟩], ⟨-20, 0, 0⟩⟩ := by
  constructor
  · norm_num [monthlyRate]
  · norm_num [applyAdditionalPayment, monthlyRate]

/-- Claim C3: the code has no non-progress guard.  When the minimum
payment never exceeds the accrued interest, the loop of lines 360-365
never exits: for every amount of fuel the simulation is still `running`,
and no `NonTerminating` error exists in the code.  This is the divergence
the specification itself flags as a defect to be fixed. -/
theorem minPaymentSimulation_divergence (amount_owed interest_rate min_payment : ℚ)
    (hB : 0 < amount_owed) (hr : 0 ≤ interest_rate) (hm0 : 0 < min_payment)
    (hm : min_payment ≤ amount_owed * monthlyRate interest_rate) :
    ∀ fuel, simulatePayoff amount_owed interest_rate min_payment fuel = SimOutcome.running := by
  intro fuel
  simp only [simulatePayoff, if_pos hm0,
    payoffLoop_stuck amount_owed (monthlyRate interest_rate) min_payment hB
      (monthlyRate_nonneg hr) hm fuel amount_owed le_rfl 0 0]

/-- Witness for C3: balance 1000 at 24% annual accrues 20 of monthly
interest; with minimum payment 10 the simulation is still running after
500 iterations. -/
theorem minPaymentSimulation_divergence_witness :
    (0 : ℚ) < 1000 ∧ (0 : ℚ) ≤ 24 ∧ (0 : ℚ) < 10 ∧ (10 : ℚ) ≤ 1000 * monthlyRate 24 ∧
    simulatePayoff 1000 24 10 500 = SimOutcome.running :=
  ⟨by norm_num, by norm_num, by norm_num, by norm_num [monthlyRate],
    minPaymentSimulation_divergence 1000 24 10 (by norm_num) (by norm_num) (by norm_num)
      (by norm_num [monthlyRate]) 500⟩

/-- Claim C4: for `amount_owed ≥ 0`, `interest_rate ≥ 0` and
`min_payment` strictly above the first period's accrued interest, the
simulation terminates (some fuel suffices) with `total_interest ≥ 0` and
`months ≥ 1`, except that a zero balance gives `months = 0`. -/
theorem minPaymentSimulation_terminates (amount_owed interest_rate min_payment : ℚ)
    (hB : 0 ≤ amount_owed) (hr : 0 ≤ interest_rate)
    (hm : amount_owed * monthlyRate interest_rate < min_payment) :
    ∃ fuel months total_interest,
      simulatePayoff amount_owed interest_rate min_payment fuel =
        SimOutcome.result months total_interest ∧
      0 ≤ total_interest ∧ (amount_owed = 0 → months = 0) ∧
      (0 < amount_owed → 1 ≤ months) := by
  have hr' : 0 ≤ monthlyRate interest_rate := monthlyRate_nonneg hr
  have hmpos : 0 < min_payment := lt_of_le_of_lt (mul_nonneg hB hr') hm
  have hδ : 0 < min_payment - amount_owed * monthlyRate interest_rate := sub_pos.mpr hm
  obtain ⟨N, hN⟩ :=
    exists_nat_ge (amount_owed / (min_payment - amount_owed * monthlyRate interest_rate))
  have hBN : amount_owed ≤ N * (min_payment - amount_owed * monthlyRate interest_rate) := by
    rw [div_le_iff₀ hδ] at hN
    linarith
  obtain ⟨mo, tI, heq, hti, hmo, hmo1⟩ :=
    payoffLoop_terminates (monthlyRate interest_rate) min_payment amount_owed hr' hm N
      amount_owed 0 0 hBN le_rfl
  refine ⟨N, mo, tI, ?_, hti, ?_, fun hpos => hmo1 hpos⟩
  · simp only [simulatePayoff, if_pos hmpos, heq]
  · intro h0
    have h2 := payoffLoop_exit (monthlyRate interest_rate) min_payment N amount_owed 0 0
      (le_of_eq h0)
    rw [heq] at h2
    exact (congrArg Prod.fst (Option.some.inj h2))

/-- Witness for C4 at the spec's concrete input 1200 / 12% / 200. -/
theorem minPaymentSimulation_terminates_witness :
    (0 : ℚ) ≤ 1200 ∧ (0 : ℚ) ≤ 12 ∧ (1200 : ℚ) * monthlyRate 12 < 200 ∧
    ∃ fuel months total_interest,
      simulatePayoff 1200 12 200 fuel = SimOutcome.result months total_interest ∧
      0 ≤ total_interest ∧ ((1200 : ℚ) = 0 → months = 0) ∧ ((0 : ℚ) < 1200 → 1 ≤ months) :=
  ⟨by norm_num, by norm_num, by norm_num [monthlyRate],
    minPaymentSimulation_terminates 1200 12 200 (by norm_num) (by norm_num)
      (by norm_num [monthlyRate])⟩

/-- Claim C5: the payoff simulator follows the specified per-period
recurrence (proved against `specRecurrence`, worded from §4.1), and on
amount_owed 1200 at 12% annual with minimum payment 200 the first
period has interest 12, principal 188 and balance 1012 (after one
unfolding the loop state is balance 1012, months 1, interest 12), and
iterating to completion gives 7 months with total interest
10963845097053/250000000000 (= 43.855380388212). -/
theorem payoffSimulation_recurrence :
    (∀ (r m : ℚ) (fuel : ℕ) (b : ℚ) (months : ℕ) (ti : ℚ),
        payoffLoop r m fuel b months ti = specRecurrence r m fuel b months ti) ∧
    (1200 : ℚ) * monthlyRate 12 = 12 ∧
    (200 : ℚ) - 1200 * monthlyRate 12 = 188 ∧
    payoffLoop (monthlyRate 12) 200 7 1200 0 0 = payoffLoop (monthlyRate 12) 200 6 1012 1 12 ∧
    payoffLoop (monthlyRate 12) 200 40 1200 0 0 = some (7, 10963845097053 / 250000000000) ∧
    specRecurrence (monthlyRate 12) 200 40 1200 0 0 = some (7, 10963845097053 / 250000000000) := by
  refine ⟨payoffLoop_eq_specRecurrence, by norm_num [monthlyRate], by norm_num [monthlyRate],
    ?_, ?_, ?_⟩
  · norm_num [payoffLoop, monthlyRate]
  · norm_num [payoffLoop, monthlyRate]
  · norm_num [specRecurrence, monthlyRate]

lemma paymentsSum_append (l : List DebtPayment) (e : DebtPayment) :
    paymentsSum (l ++ [e]) = paymentsSum l + e.payment_amount := by
  simp [paymentsSum]

lemma applySeq_sum (c : String) :
    ∀ (ps : List (ℚ × String)) (s s' : Store),
      applySeq s c ps = Except.ok s' →
      paymentsSum s'.debt_payments = paymentsSum s.debt_payments + (ps.map Prod.fst).sum := by
  intro ps
  induction ps with
  | nil =>
    intro s s' h
    simp only [applySeq, Except.ok.injEq] at h
    subst h
    simp
  | cons pt rest ih =>
    intro s s' h
    obtain ⟨p, t⟩ := pt
    cases hg : getDebt s c with
    | none =>
      simp only [applySeq, hg] at h
      exact (Except.noConfusion h)
    | some d =>
      cases ha : applyAdditionalPayment s d p t with
      | error e =>
        simp only [applySeq, hg, ha] at h
        exact (Except.noConfusion h)
      | ok s₁ =>
        simp only [applySeq, hg, ha] at h
        have h1 := ih s₁ s' h
        obtain ⟨-, -, rfl⟩ := applyAdditionalPayment_ok s d p t s₁ ha
        rw [h1]
        show paymentsSum (s.debt_payments ++ [⟨d.id, p, t⟩]) + _ = _
        rw [paymentsSum_append]
        simp
        ring

/-- Claim C6: each accepted payment appends exactly one `debt_payments`
row carrying the gross payment amount, and over any sequence of accepted
payments the sum of recorded amounts equals the total gross amount paid,
independent of the interest/principal split. -/
theorem paymentLog_gross (s : Store) (c : String) (ps : List (ℚ × String)) (s' : Store)
    (h : applySeq s c ps = Except.ok s') :
    (∀ (d : Debt) (p : ℚ) (t : String) (s₁ : Store),
        applyAdditionalPayment s d p t = Except.ok s₁ →
        s₁.debt_payments = s.debt_payments ++ [⟨d.id, p, t⟩]) ∧
    paymentsSum s'.debt_payments = paymentsSum s.debt_payments + (ps.map Prod.fst).sum := by
  refine ⟨fun d p t s₁ h₁ => ?_, applySeq_sum c ps s s' h⟩
  obtain ⟨-, -, rfl⟩ := applyAdditionalPayment_ok s d p t s₁ h₁
  rfl

/-- Witness for C6: two accepted payments of 50 and 30 on a 500-balance
debt at 24% annual add exactly 80 to the recorded-payments sum, although
the principal portions were 40 and 20.8. -/
theorem paymentLog_gross_witness :
    ∃ s', applySeq ⟨[⟨1, "Bank", 500, 24, 50⟩], [], ⟨100, 0, 0⟩⟩ "Bank"
        [(50, "2026-02-03"), (30, "2026-03-03")] = Except.ok s' ∧
      paymentsSum s'.debt_payments =
        paymentsSum (⟨[⟨1, "Bank", 500, 24, 50⟩], [], ⟨100, 0, 0⟩⟩ : Store).debt_payments
          + 80 := by
  have h : applySeq ⟨[⟨1, "Bank", 500, 24, 50⟩], [], ⟨100, 0, 0⟩⟩ "Bank"
      [(50, "2026-02-03"), (30, "2026-03-03")] =
      Except.ok ⟨[⟨1, "Bank", 2196/5, 24, 50⟩],
        [⟨1, 50, "2026-02-03"⟩, ⟨1, 30, "2026-03-03"⟩], ⟨20, 0, 0⟩⟩ := by
    norm_num [applySeq, getDebt, List.find?, applyAdditionalPayment, monthlyRate]
  refine ⟨_, h, ?_⟩
  have h2 := (paymentLog_gross ⟨[⟨1, "Bank", 500, 24, 50⟩], [], ⟨100, 0, 0⟩⟩ "Bank"
    [(50, "2026-02-03"), (30, "2026-03-03")] _ h).2
  rw [h2]
  norm_num

/-- Claim C7: under the data model's unique-creditor invariant, an
accepted additional payment never increases any debt's `amount_owed`
(the guard of line 386 establishes `principal_payment ≥ 0` before the
mutation). -/
theorem amountOwed_monotone (s : Store) (d : Debt) (p : ℚ) (today : String) (s' : Store)
    (hnd : (s.debts.map Debt.creditor).Nodup) (hmem : d ∈ s.debts)
    (h : applyAdditionalPayment s d p today = Except.ok s') :
    s'.debts.length = s.debts.length ∧
    ∀ (i : ℕ) (hi : i < s'.debts.length) (hj : i < s.debts.length),
      s'.debts[i].amount_owed ≤ s.debts[i].amount_owed := by
  obtain ⟨hp, hpr, rfl⟩ := applyAdditionalPayment_ok s d p today s' h
  refine ⟨by simp, ?_⟩
  intro i hi hj
  simp only [List.getElem_map]
  by_cases hc : s.debts[i].creditor = d.creditor
  · rw [if_pos hc]
    have hx : s.debts[i] = d :=
      List.inj_on_of_nodup_map hnd (List.getElem_mem hj) hmem hc
    show d.amount_owed - (p - d.amount_owed * monthlyRate d.interest_rate) ≤
      s.debts[i].amount_owed
    rw [hx]
    linarith
  · rw [if_neg hc]

/-- Witness for C7 on a two-debt store with distinct creditors. -/
theorem amountOwed_monotone_witness :
    ∃ s', applyAdditionalPayment
        ⟨[⟨1, "Bank", 500, 24, 50⟩, ⟨2, "Card", 100, 12, 10⟩], [], ⟨100, 0, 0⟩⟩
        ⟨1, "Bank", 500, 24, 50⟩ 50 "2026-02-03" = Except.ok s' ∧
      (s'.debts.length =
          (⟨[⟨1, "Bank", 500, 24, 50⟩, ⟨2, "Card", 100, 12, 10⟩], [], ⟨100, 0, 0⟩⟩ : Store).debts.length ∧
        ∀ (i : ℕ) (hi : i < s'.debts.length)
          (hj : i < (⟨[⟨1, "Bank", 500, 24, 50⟩, ⟨2, "Card", 100, 12, 10⟩], [], ⟨100, 0, 0⟩⟩ : Store).debts.length),
          s'.debts[i].amount_owed ≤
            (⟨[⟨1, "Bank", 500, 24, 50⟩, ⟨2, "Card", 100, 12, 10⟩], [], ⟨100, 0, 0⟩⟩ : Store).debts[i].amount_owed) := by
  have h : applyAdditionalPayment
      ⟨[⟨1, "Bank", 500, 24, 50⟩, ⟨2, "Card", 100, 12, 10⟩], [], ⟨100, 0, 0⟩⟩
      ⟨1, "Bank", 500, 24, 50⟩ 50 "2026-02-03" =
      Except.ok ⟨[⟨1, "Bank", 460, 24, 50⟩, ⟨2, "Card", 100, 12, 10⟩],
        [⟨1, 50, "2026-02-03"⟩], ⟨50, 0, 0⟩⟩ := by
    norm_num [applyAdditionalPayment, monthlyRate]
    simp
  exact ⟨_, h, amountOwed_monotone
    ⟨[⟨1, "Bank", 500, 24, 50⟩, ⟨2, "Card", 100, 12, 10⟩], [], ⟨100, 0, 0⟩⟩
    ⟨1, "Bank", 500, 24, 50⟩ 50 "2026-02-03" _ (by decide) (by simp) h⟩

/-- Counterexample to C8 as stated: starting from the initial store
(savings row `(0, 0, 0)`), adding a debt of 500 at 24% and applying an
accepted additional payment of 50 drives `saved_amount` to `-50 < 0`:
lines 398-402 subtract unconditionally, with no funds check. -/
theorem savingsNonneg_counterexample :
    ∃ d s', getDebt (addDebt initStore "Bank" 500 24 50) "Bank" = some d ∧
      applyAdditionalPayment (addDebt initStore "Bank" 500 24 50) d 50 "2026-02-03" =
        Except.ok s' ∧
      s'.savings.saved_amount < 0 := by
  refine ⟨⟨1, "Bank", 500, 24, 50⟩,
    ⟨[⟨1, "Bank", 460, 24, 50⟩], [⟨1, 50, "2026-02-03"⟩], ⟨-50, 0, 0⟩⟩, ?_, ?_, by norm_num⟩
  · norm_num [getDebt, addDebt, initStore, List.find?]
  · norm_num [applyAdditionalPayment, addDebt, initStore, monthlyRate]

/-- Claim C8, amended: an accepted additional payment sets
`saved_amount` to its old value minus the payment (leaving `goal_amount`
and `monthly_savings` unchanged), so `saved_amount ≥ 0` is preserved
exactly when the payment does not exceed the current `saved_amount`. -/
theorem savingsDecrement (s : Store) (d : Debt) (p : ℚ) (today : String) (s' : Store)
    (h : applyAdditionalPayment s d p today = Except.ok s') :
    s'.savings.saved_amount = s.savings.saved_amount - p ∧
    s'.savings.goal_amount = s.savings.goal_amount ∧
    s'.savings.monthly_savings = s.savings.monthly_savings ∧
    (p ≤ s.savings.saved_amount → 0 ≤ s'.savings.saved_amount) := by
  obtain ⟨hp, hpr, rfl⟩ := applyAdditionalPayment_ok s d p today s' h
  refine ⟨rfl, rfl, rfl, fun hle => ?_⟩
  show 0 ≤ s.savings.saved_amount - p
  linarith

/-- Witness for C8 (amended): with 100 saved, a payment of 50 leaves a
non-negative savings balance. -/
theorem savingsDecrement_witness :
    ∃ s', applyAdditionalPayment ⟨[⟨1, "Bank", 500, 24, 50⟩], [], ⟨100, 0, 0⟩⟩
        ⟨1, "Bank", 500, 24, 50⟩ 50 "2026-02-03" = Except.ok s' ∧
      (50 : ℚ) ≤ 100 ∧ 0 ≤ s'.savings.saved_amount := by
  have h : applyAdditionalPayment ⟨[⟨1, "Bank", 500, 24, 50⟩], [], ⟨100, 0, 0⟩⟩
      ⟨1, "Bank", 500, 24, 50⟩ 50 "2026-02-03" =
      Except.ok ⟨[⟨1, "Bank", 460, 24, 50⟩], [⟨1, 50, "2026-02-03"⟩], ⟨50, 0, 0⟩⟩ := by
    norm_num [applyAdditionalPayment, monthlyRate]
  exact ⟨_, h, by norm_num,
    (savingsDecrement ⟨[⟨1, "Bank", 500, 24, 50⟩], [], ⟨100, 0, 0⟩⟩
      ⟨1, "Bank", 500, 24, 50⟩ 50 "2026-02-03" _ h).2.2.2 (by norm_num)⟩

/-- Claim C9: an accepted additional payment of `P` performs exactly the
three documented effects: rows of `debts` whose creditor differs from the
paid debt's are untouched; rows with the paid creditor keep their id,
creditor, interest_rate and min_payment and only `amount_owed` is set to
the new balance; exactly one `DebtPayment` row with the gross amount `P`
and the given date is appended; and `saved_amount` drops by exactly `P`
while `goal_amount` and `monthly_savings` are unchanged. -/
theorem additionalPayment_frame (s : Store) (d : Debt) (p : ℚ) (today : String) (s' : Store)
    (h : applyAdditionalPayment s d p today = Except.ok s') :
    s'.debt_payments = s.debt_payments ++ [⟨d.id, p, today⟩] ∧
    s'.savings.saved_amount = s.savings.saved_amount - p ∧
    s'.savings.goal_amount = s.savings.goal_amount ∧
    s'.savings.monthly_savings = s.savings.monthly_savings ∧
    s'.debts.length = s.debts.length ∧
    ∀ (i : ℕ) (hi : i < s'.debts.length) (hj : i < s.debts.length),
      (s.debts[i].creditor ≠ d.creditor → s'.debts[i] = s.debts[i]) ∧
      (s.debts[i].creditor = d.creditor →
        s'.debts[i] =
          { s.debts[i] with
              amount_owed :=
                d.amount_owed - (p - d.amount_owed * monthlyRate d.interest_rate) }) := by
  obtain ⟨hp, hpr, rfl⟩ := applyAdditionalPayment_ok s d p today s' h
  refine ⟨rfl, rfl, rfl, rfl, by simp, ?_⟩
  intro i hi hj
  constructor
  · intro hc
    simp only [List.getElem_map]
    rw [if_neg hc]
  · intro hc
    simp only [List.getElem_map]
    rw [if_pos hc]

/-- Witness for C9 at the spec's concrete scenario (500 at 24%, payment
50, savings 100). -/
theorem additionalPayment_frame_witness :
    ∃ s', applyAdditionalPayment ⟨[⟨1, "Bank", 500, 24, 50⟩], [], ⟨100, 0, 0⟩⟩
        ⟨1, "Bank", 500, 24, 50⟩ 50 "2026-02-03" = Except.ok s' ∧
      s'.debt_payments =
        (⟨[⟨1, "Bank", 500, 24, 50⟩], [], ⟨100, 0, 0⟩⟩ : Store).debt_payments
          ++ [⟨1, 50, "2026-02-03"⟩] ∧
      s'.savings.saved_amount = 100 - 50 ∧
      s'.savings.goal_amount = 0 ∧ s'.savings.monthly_savings = 0 := by
  have h : applyAdditionalPayment ⟨[⟨1, "Bank", 500, 24, 50⟩], [], ⟨100, 0, 0⟩⟩
      ⟨1, "Bank", 500, 24, 50⟩ 50 "2026-02-03" =
      Except.ok ⟨[⟨1, "Bank", 460, 24, 50⟩], [⟨1, 50, "2026-02-03"⟩], ⟨50, 0, 0⟩⟩ := by
    norm_num [applyAdditionalPayment, monthlyRate]
  obtain ⟨h1, h2, h3, h4, -⟩ := additionalPayment_frame
    ⟨[⟨1, "Bank", 500, 24, 50⟩], [], ⟨100, 0, 0⟩⟩ ⟨1, "Bank", 500, 24, 50⟩ 50 "2026-02-03" _ h
  exact ⟨_, h, h1, by rw [h2], h3, h4⟩

/-- Claim C10 fails on the code: debt creation (line 318) inserts
without any uniqueness check, so two debts named "Bank" are reachable
from the initial store; the balance update of line 391 (`WHERE creditor
= ?`) then rewrites both rows — the second debt jumps from 100 to 460,
the new balance computed for the first. -/
theorem creditorUniqueness_violated :
    ¬ (((addDebt (addDebt initStore "Bank" 500 24 50) "Bank" 100 12 10).debts.map
        Debt.creditor).Nodup) ∧
    (addDebt (addDebt initStore "Bank" 500 24 50) "Bank" 100 12 10).debts.map
        Debt.amount_owed = [500, 100] ∧
    ∃ d s', getDebt (addDebt (addDebt initStore "Bank" 500 24 50) "Bank" 100 12 10) "Bank" =
        some d ∧
      applyAdditionalPayment (addDebt (addDebt initStore "Bank" 500 24 50) "Bank" 100 12 10)
        d 50 "2026-02-03" = Except.ok s' ∧
      s'.debts.map Debt.amount_owed = [460, 460] := by
  refine ⟨by simp [addDebt, initStore], by simp [addDebt, initStore],
    ⟨1, "Bank", 500, 24, 50⟩,
    ⟨[⟨1, "Bank", 460, 24, 50⟩, ⟨2, "Bank", 460, 12, 10⟩], [⟨1, 50, "2026-02-03"⟩],
      ⟨-50, 0, 0⟩⟩, ?_, ?_, by simp⟩
  · norm_num [getDebt, addDebt, initStore, List.find?]
  · norm_num [applyAdditionalPayment, addDebt, initStore, monthlyRate]
